import Mathlib

/-!
Verification of `VectorLayerLoader` (src/emodnet_viewer/utils/vector_loader.py).

The loader keeps a two-tier cache:
  * Tier A (`_gdf_cache`): an `OrderedDict` from `"{file_path}:{layer_name}"`
    to the loaded GeoDataFrame;
  * Tier B (`_geojson_cache`): an `OrderedDict` from
    `"{file_path}:{layer_name}:simplify={tol}"` to the serialized GeoJSON.

Python `OrderedDict`s are modelled as association lists, head = oldest entry,
insertion order preserved; `move_to_end` re-appends an existing entry at the
tail.  GeoDataFrame and GeoJSON payloads are abstract type parameters; the
geopandas operations (`read_file`, `to_crs`, `simplify`, `to_json` plus the
metadata block) are abstract function parameters, since only the cache
bookkeeping is at issue in the claims about this code path.
-/

namespace BBTViewer

/-- Association-list lookup, first match wins (Python `key in d` / `d[key]`). -/
def odLookup {V : Type} (k : String) : List (String × V) → Option V
  | [] => none
  | (k', v) :: rest => if k' = k then some v else odLookup k rest

/-- Remove the first entry with the given key (Python `d.pop(key, None)`). -/
def odErase {V : Type} (k : String) : List (String × V) → List (String × V)
  | [] => []
  | (k', v) :: rest => if k' = k then rest else (k', v) :: odErase k rest

/-- Python `d[key] = value`: replace in place if the key is present (keeping
its position, as a `dict` does), otherwise append at the tail (newest). -/
def odSet {V : Type} (k : String) (v : V) : List (String × V) → List (String × V)
  | [] => [(k, v)]
  | (k', v') :: rest => if k' = k then (k', v) :: rest else (k', v') :: odSet k v rest

/-- Python `OrderedDict.move_to_end(key)`: move an existing entry to the tail
(most-recently-used position).  The call sites below only invoke it on keys
that are present (Python would raise `KeyError` otherwise). -/
def odMoveToEnd {V : Type} (k : String) (l : List (String × V)) : List (String × V) :=
  match odLookup k l with
  | none => l
  | some v => odErase k l ++ [(k, v)]

/-- The two cache tiers of `VectorLayerLoader` (`_gdf_cache`, `_geojson_cache`).
`V` is the GeoDataFrame payload type, `W` the serialized-GeoJSON payload type. -/
structure CachesSt (V W : Type) where
  gdf : List (String × V)
  geojson : List (String × W)
  deriving Repr, DecidableEq

/-- `VectorLayerLoader.MAX_CACHE_SIZE` -/
def MAX_CACHE_SIZE : Nat := 50

/-- `VectorLayerLoader.CACHE_EVICT_SIZE` -/
def CACHE_EVICT_SIZE : Nat := 10

/-- One iteration of the eviction loop body of `_evict_cache_entries`:
`if self._gdf_cache: evicted_key = next(iter(self._gdf_cache));
self._gdf_cache.pop(evicted_key); self._geojson_cache.pop(evicted_key, None)`.
Note the Tier-B pop uses `evicted_key` — the *Tier-A* key, without the
`:simplify=` suffix. -/
def evictOnce {V W : Type} (s : CachesSt V W) : CachesSt V W :=
  match s.gdf with
  | [] => s
  | (k, _) :: rest => ⟨rest, odErase k s.geojson⟩

/-- `VectorLayerLoader._evict_cache_entries` (vector_loader.py:424-441):
when Tier A has reached `MAX_CACHE_SIZE`, pop the `CACHE_EVICT_SIZE` oldest
Tier-A entries, popping Tier B with the same (un-suffixed) key each time. -/
def evictCacheEntries {V W : Type} (s : CachesSt V W) : CachesSt V W :=
  if MAX_CACHE_SIZE ≤ s.gdf.length then evictOnce^[CACHE_EVICT_SIZE] s else s

/-- Python `simplify_tolerance or 0` (both `None` and `0.0` are falsy), the
value interpolated into the Tier-B cache key.  The model renders rationals
with `toString` instead of Python float formatting; only distinctness and the
common `"{cacheKey}:simplify="` prefix matter to the claims, and both are
preserved by this rendering. -/
def simplifyParam : Option ℚ → ℚ
  | none => 0
  | some t => if t = 0 then 0 else t

/-- `if simplify_tolerance and simplify_tolerance > 0: gdf["geometry"] =
gdf.geometry.simplify(tolerance=simplify_tolerance)` applied to the *copy*
of the cached frame (`gdf = self._gdf_cache[cache_key].copy()`). -/
def doSimplify {V : Type} (simpFn : ℚ → V → V) (tol : Option ℚ) (v : V) : V :=
  match tol with
  | none => v
  | some t => if t ≠ 0 ∧ 0 < t then simpFn t v else v

/-- The GPKG path of `VectorLayerLoader.get_vector_layer_geojson`
(vector_loader.py:443-552), for a layer whose `file_path` does not end in
`.geojson` (the GeoJSON fast path never touches Tier A and is not involved
in the cache claims).  Parameters:
  * `simpFn` — `geometry.simplify(tolerance)`;
  * `reproj` — the `to_crs("EPSG:4326")` step (identity when already WGS84);
  * `ser`    — `json.loads(gdf.to_json())` plus attaching the metadata block;
  * `read`   — the value `gpd.read_file(layer.file_path, layer=...)` would
    return on a Tier-A miss (the success case; a raising read propagates out
    of the whole method and leaves the caches as modelled here untouched).
Returns the served GeoJSON and the updated caches. -/
def getVectorLayerGeojson {V W : Type} (simpFn : ℚ → V → V) (reproj : V → V)
    (ser : V → W) (read : V) (fp ln : String) (tol : Option ℚ)
    (s : CachesSt V W) : W × CachesSt V W :=
  let cacheKey := fp ++ ":" ++ ln
  let geojsonCacheKey := cacheKey ++ ":simplify=" ++ toString (simplifyParam tol)
  -- TIER 1: serialized-GeoJSON cache hit returns immediately, LRU-promoted
  match odLookup geojsonCacheKey s.geojson with
  | some w => (w, ⟨s.gdf, odMoveToEnd geojsonCacheKey s.geojson⟩)
  | none =>
    -- TIER 2: GeoDataFrame cache
    let vs :=
      match odLookup cacheKey s.gdf with
      | none =>
        -- miss: evict if full, read from disk, insert
        let s' := evictCacheEntries s
        (read, (⟨odSet cacheKey read s'.gdf, s'.geojson⟩ : CachesSt V W))
      | some v =>
        -- hit: promote to most-recently-used
        (v, ⟨odMoveToEnd cacheKey s.gdf, s.geojson⟩)
    -- work on a copy (`.copy()`): the Tier-A entry itself is not written back
    let w := ser (doSimplify simpFn tol (reproj vs.1))
    let gj := odSet geojsonCacheKey w vs.2.geojson
    -- `if len(self._geojson_cache) > self.MAX_CACHE_SIZE:` pop the oldest
    let gj := if MAX_CACHE_SIZE < gj.length then gj.tail else gj
    (w, ⟨vs.2.gdf, gj⟩)

/-- A request against the loader's GPKG cache path: the layer identity
(`file_path`, `layer_name`), the simplify tolerance of the request, and the
GeoDataFrame the disk read would deliver on a Tier-A miss. -/
structure LoadOp (V : Type) where
  fp : String
  ln : String
  tol : Option ℚ
  read : V

/-- Run a sequence of `get_vector_layer_geojson` requests, oldest first. -/
def runOps {V W : Type} (simpFn : ℚ → V → V) (reproj : V → V) (ser : V → W) :
    List (LoadOp V) → CachesSt V W → CachesSt V W
  | [], s => s
  | op :: rest, s =>
    runOps simpFn reproj ser rest
      (getVectorLayerGeojson simpFn reproj ser op.read op.fp op.ln op.tol s).2

/-- The empty caches of a fresh `VectorLayerLoader`. -/
def initCaches {V W : Type} : CachesSt V W := ⟨[], []⟩

/-- The rational 0.01 (= 1/100), built with literal numerator and denominator
so that it evaluates inside the kernel. -/
def ratHundredth : ℚ := ⟨1, 100, by decide, Nat.coprime_one_left _⟩

/-- Sanity: `ratHundredth` really is 1/100. -/
lemma ratHundredth_eq : ratHundredth = 1 / 100 := by
  rw [ratHundredth, Rat.mk'_eq_divInt, Rat.divInt_eq_div]; norm_num

/-! ### Concrete request traces

`orphanTrace` drives 51 distinct GPKG layers (files `"0"`‥`"50"`, layer
`"l"`, no simplification) through `get_vector_layer_geojson` on a fresh
loader.  The 51st request finds Tier A full (50 entries) and triggers
`_evict_cache_entries`, which removes the 10 oldest Tier-A entries.

`lruTrace` drives 50 distinct layers, then re-requests the first layer with a
different tolerance (`simplify=1`, so Tier B misses and Tier A takes the hit
and promotes the entry), then requests a 51st distinct layer, triggering the
same eviction.  Read values are the layer's index, and `9999` for the
re-access, so a surviving value identifies which read produced it. -/

def orphanOps : List (LoadOp Nat) :=
  (List.range 51).map (fun i => ⟨toString i, "l", none, i⟩)

def orphanTrace : CachesSt Nat Nat :=
  runOps (fun _ v => v) id id orphanOps initCaches

def lruOps₁ : List (LoadOp Nat) :=
  (List.range 50).map (fun i => ⟨toString i, "l", none, i⟩) ++ [⟨"0", "l", some 1, 9999⟩]

def lruOps₂ : List (LoadOp Nat) := [⟨"50", "l", none, 50⟩]

def lruTraceMid : CachesSt Nat Nat := runOps (fun _ v => v) id id lruOps₁ initCaches

def lruTrace : CachesSt Nat Nat := runOps (fun _ v => v) id id lruOps₂ lruTraceMid

end BBTViewer

namespace BBTViewer

set_option maxRecDepth 20000

/-- C1.  The claimed cache-coherency invariant fails on the code: after the
51-request trace, the Tier-B serialized cache still holds the compound key
`"1:l:simplify=0"` although its Tier-A key `"1:l"` was evicted by
`_evict_cache_entries` during the 51st request.  The eviction loop pops Tier B
with the bare Tier-A key (`self._geojson_cache.pop(evicted_key, None)`), which
never matches the `:simplify=`-suffixed Tier-B keys, so the Tier-B entries of
an evicted Tier-A entry are orphaned rather than removed. -/
theorem C1_tierB_orphaned_after_eviction :
    odLookup "1:l" orphanTrace.gdf = none ∧
    odLookup "1:l:simplify=0" orphanTrace.geojson = some 1 := by decide

/-- C4.  Tier-A LRU behaviour on the capacity-50 cache: layers `"0"`‥`"49"`
fill Tier A; re-accessing layer `"0"` (a Tier-A hit — the request uses a new
tolerance, so Tier B misses) promotes it to most-recently-used; the 51st
distinct load then evicts the oldest entries.  Layer `"0"` survives with its
originally cached value (read value 0, proving the re-access was a hit and
not a re-read), `"1:l"` — the least-recently-used of the remaining keys — was
still present before the 51st load and is evicted by it. -/
theorem C4_lru_promotion_and_eviction :
    odLookup "0:l" lruTrace.gdf = some 0 ∧
    odLookup "1:l" lruTraceMid.gdf = some 1 ∧
    odLookup "1:l" lruTrace.gdf = none := by decide

/-! ### Eviction bound (C5) -/

lemma odErase_length_le {V : Type} (k : String) (l : List (String × V)) :
    (odErase k l).length ≤ l.length := by
  induction l with
  | nil => simp [odErase]
  | cons p rest ih =>
    obtain ⟨k', v⟩ := p
    by_cases h : k' = k
    · simp only [odErase, if_pos h, List.length_cons]
      omega
    · simp only [odErase, if_neg h, List.length_cons]
      omega

lemma odErase_length_of_lookup {V : Type} {k : String} {l : List (String × V)} {v : V}
    (h : odLookup k l = some v) : (odErase k l).length + 1 = l.length := by
  induction l with
  | nil => simp [odLookup] at h
  | cons p rest ih =>
    obtain ⟨k', v'⟩ := p
    by_cases hk : k' = k
    · simp [odErase, hk]
    · simp only [odLookup, if_neg hk] at h
      simp [odErase, hk, ih h]

lemma odMoveToEnd_length {V : Type} (k : String) (l : List (String × V)) :
    (odMoveToEnd k l).length = l.length := by
  unfold odMoveToEnd
  cases h : odLookup k l with
  | none => rfl
  | some v => simpa using odErase_length_of_lookup h

lemma odSet_length_le {V : Type} (k : String) (v : V) (l : List (String × V)) :
    (odSet k v l).length ≤ l.length + 1 := by
  induction l with
  | nil => simp [odSet]
  | cons p rest ih =>
    obtain ⟨k', v'⟩ := p
    by_cases h : k' = k
    · simp only [odSet, if_pos h, List.length_cons]
      omega
    · simp only [odSet, if_neg h, List.length_cons]
      omega

lemma evictOnce_gdf_length {V W : Type} (s : CachesSt V W) :
    (evictOnce s).gdf.length = s.gdf.length - 1 := by
  obtain ⟨gdf, gj⟩ := s
  cases gdf with
  | nil => rfl
  | cons p rest => simp [evictOnce]

lemma evictOnce_iter_gdf_length {V W : Type} (n : Nat) (s : CachesSt V W) :
    (evictOnce^[n] s).gdf.length = s.gdf.length - n := by
  induction n generalizing s with
  | zero => simp
  | succ m ih =>
    rw [Function.iterate_succ_apply, ih, evictOnce_gdf_length]
    omega

lemma evictCacheEntries_gdf_length {V W : Type} (s : CachesSt V W) :
    (evictCacheEntries s).gdf.length =
      if MAX_CACHE_SIZE ≤ s.gdf.length then s.gdf.length - CACHE_EVICT_SIZE
      else s.gdf.length := by
  unfold evictCacheEntries
  by_cases h : MAX_CACHE_SIZE ≤ s.gdf.length <;>
    simp [h, evictOnce_iter_gdf_length]

/-- One `get_vector_layer_geojson` request keeps Tier A within capacity. -/
lemma getVectorLayerGeojson_gdf_length_le {V W : Type}
    (simpFn : ℚ → V → V) (reproj : V → V) (ser : V → W) (read : V)
    (fp ln : String) (tol : Option ℚ) (s : CachesSt V W)
    (h : s.gdf.length ≤ MAX_CACHE_SIZE) :
    (getVectorLayerGeojson simpFn reproj ser read fp ln tol s).2.gdf.length ≤
      MAX_CACHE_SIZE := by
  unfold getVectorLayerGeojson
  have hM : MAX_CACHE_SIZE = 50 := rfl
  have hE : CACHE_EVICT_SIZE = 10 := rfl
  cases h1 : odLookup (fp ++ ":" ++ ln ++ ":simplify=" ++ toString (simplifyParam tol))
      s.geojson with
  | some w => simpa only [h1] using h
  | none =>
    simp only [h1]
    cases h2 : odLookup (fp ++ ":" ++ ln) s.gdf with
    | none =>
      simp only [h2]
      have h3 := odSet_length_le (fp ++ ":" ++ ln) read (evictCacheEntries s).gdf
      have h4 := evictCacheEntries_gdf_length s
      simp only [hM, hE] at h4 ⊢
      simp only [hM] at h
      by_cases h5 : 50 ≤ s.gdf.length
      · rw [if_pos h5] at h4
        omega
      · rw [if_neg h5] at h4
        omega
    | some v =>
      simp only [h2]
      simpa only [odMoveToEnd_length] using h

lemma runOps_gdf_length_le {V W : Type}
    (simpFn : ℚ → V → V) (reproj : V → V) (ser : V → W)
    (ops : List (LoadOp V)) (s : CachesSt V W)
    (h : s.gdf.length ≤ MAX_CACHE_SIZE) :
    (runOps simpFn reproj ser ops s).gdf.length ≤ MAX_CACHE_SIZE := by
  induction ops generalizing s with
  | nil => simpa [runOps] using h
  | cons op rest ih =>
    exact ih _ (getVectorLayerGeojson_gdf_length_le simpFn reproj ser
      op.read op.fp op.ln op.tol s h)

/-- The rational 0.5, with literal numerator and denominator. -/
def ratHalf : ℚ := ⟨1, 2, by decide, Nat.coprime_one_left _⟩

/-- The caches after serving the layer `f.gpkg`/`layer` once with
`simplify_tolerance=0.01` on a fresh loader (`v0` is the frame the disk read
returns). -/
def c6AfterFirst {V W : Type} (simpFn : ℚ → V → V) (reproj : V → V)
    (ser : V → W) (v0 : V) : CachesSt V W :=
  (getVectorLayerGeojson simpFn reproj ser v0 "f.gpkg" "layer"
    (some ratHundredth) initCaches).2

/-- The caches after then serving the same layer with
`simplify_tolerance=None`. -/
def c6AfterBoth {V W : Type} (simpFn : ℚ → V → V) (reproj : V → V)
    (ser : V → W) (v0 : V) : CachesSt V W :=
  (getVectorLayerGeojson simpFn reproj ser v0 "f.gpkg" "layer"
    none (c6AfterFirst simpFn reproj ser v0)).2

/-- C6.  Simplification is non-destructive to the Tier-A cache.  Starting from
a fresh loader and an arbitrary GeoDataFrame `v0`, serving the layer with
`simplify_tolerance=0.01` and then with `None` creates two distinct Tier-B
entries (`:simplify=1/100` and `:simplify=0`), while the Tier-A entry still
holds the original frame `v0` — `get_vector_layer_geojson` works on a copy
(`self._gdf_cache[cache_key].copy()`) and never writes the simplified frame
back.  A third request with a different tolerance (0.5) therefore simplifies
from the unmodified original `v0` (its result is `ser (simpFn 0.5 (reproj
v0))`, not a value derived from `v1`, the frame a fresh disk read would have
produced, nor from any previously simplified frame).  This holds for every
simplification function `simpFn`, reprojection `reproj` and serializer
`ser`. -/
theorem C6_simplify_nondestructive {V W : Type}
    (simpFn : ℚ → V → V) (reproj : V → V) (ser : V → W) (v0 v1 : V) :
    odLookup "f.gpkg:layer"
      (c6AfterBoth simpFn reproj ser v0).gdf = some v0 ∧
    odLookup "f.gpkg:layer:simplify=1/100" (c6AfterBoth simpFn reproj ser v0).geojson =
      some (ser (simpFn ratHundredth (reproj v0))) ∧
    odLookup "f.gpkg:layer:simplify=0" (c6AfterBoth simpFn reproj ser v0).geojson =
      some (ser (reproj v0)) ∧
    (getVectorLayerGeojson simpFn reproj ser v1 "f.gpkg" "layer"
      (some ratHalf) (c6AfterBoth simpFn reproj ser v0)).1 =
      ser (simpFn ratHalf (reproj v0)) := by
  refine ⟨?_, ?_, ?_, ?_⟩ <;> rfl

/-- C5.  Eviction bound: starting from a fresh loader, any sequence of
`get_vector_layer_geojson` requests (each Tier-A miss running
`_evict_cache_entries` before inserting) leaves at most
`MAX_CACHE_SIZE` (= 50) entries in the Tier-A GeoDataFrame cache. -/
theorem C5_tierA_size_bounded {V W : Type}
    (simpFn : ℚ → V → V) (reproj : V → V) (ser : V → W)
    (ops : List (LoadOp V)) :
    (runOps simpFn reproj ser ops (initCaches (V := V) (W := W))).gdf.length ≤
      MAX_CACHE_SIZE :=
  runOps_gdf_length_le simpFn reproj ser ops initCaches (by simp [initCaches])

/-! ### `load_vector_layer` (C2)

`VectorLayerLoader.load_vector_layer` (vector_loader.py:236-323) wraps its
whole body in `try: ... except Exception as e: self.logger.error(...);
return None`.  The body first obtains a GeoDataFrame (pyogrio engine, falling
back to a direct fiona read — both raising on a missing file or corrupt
container), then returns `None` if the frame is empty, otherwise builds the
`VectorLayer` descriptor.

In the embedding, `G` is the GeoDataFrame type, `L` the descriptor type;
`readRes` is the combined outcome of the two read attempts (`.error` when
both engines raise); `isEmpty` is `gdf.empty`; `mk` is the descriptor
construction of lines 288-316 (reprojection, bounds, display name, style),
which the claim does not inspect.  The result type `Except String (Option L)`
distinguishes a raised exception (`.error`) from a returned value (`.ok`). -/

def load_vector_layer {G L : Type} (isEmpty : G → Bool) (mk : G → L)
    (readRes : Except String G) : Except String (Option L) :=
  match readRes with
  | .error _ => .ok none          -- `except Exception: log and return None`
  | .ok gdf =>
    if isEmpty gdf then .ok none  -- `if gdf.empty: log warning; return None`
    else .ok (some (mk gdf))

/-- C2 counterexample.  The claim says an I/O failure (missing file, corrupt
container) is raised/propagated to the caller, distinctly from the `None`
returned for an empty layer.  It is not: the catch-all `except` converts the
failure to `None`, the same value an empty layer produces, so `load_vector_layer`
applied to a failing read returns `.ok none` and never `.error`. -/
theorem C2_io_failure_not_raised :
    load_vector_layer (G := List Unit) (L := Unit) List.isEmpty (fun _ => ())
        (.error "No such file or directory: data/vector/missing.gpkg") =
      .ok none ∧
    ¬ ∃ e, load_vector_layer (G := List Unit) (L := Unit) List.isEmpty
        (fun _ => ())
        (.error "No such file or directory: data/vector/missing.gpkg") =
      .error e := by
  constructor
  · rfl
  · rintro ⟨e, h⟩
    simp [load_vector_layer] at h

/-- C2 as amended.  `load_vector_layer` returns `None` both when the layer is
empty and when reading raises; every exception is caught and mapped to
`None`, so no exception ever propagates to the caller and the two outcomes
are not distinguished.  A non-empty, readable layer yields the descriptor. -/
theorem C2_amended_none_for_empty_and_failure {G L : Type}
    (isEmpty : G → Bool) (mk : G → L) :
    (∀ e, load_vector_layer isEmpty mk (.error e) = .ok none) ∧
    (∀ g, isEmpty g = true → load_vector_layer isEmpty mk (.ok g) = .ok none) ∧
    (∀ g, isEmpty g = false →
      load_vector_layer isEmpty mk (.ok g) = .ok (some (mk g))) ∧
    (∀ r e, load_vector_layer isEmpty mk r ≠ .error e) := by
  refine ⟨fun e => rfl, fun g hg => by simp [load_vector_layer, hg],
    fun g hg => by simp [load_vector_layer, hg], fun r e h => ?_⟩
  rcases r with e' | g
  · simp [load_vector_layer] at h
  · by_cases hg : isEmpty g <;> simp [load_vector_layer, hg] at h

/-- C2 amended-claim witness at concrete inputs: the empty list is an empty
frame (`None`), a failing read gives `None`, a singleton frame gives the
descriptor. -/
theorem C2_amended_witness :
    load_vector_layer (G := List Unit) (L := Unit) List.isEmpty (fun _ => ())
        (.ok []) = .ok none ∧
    load_vector_layer (G := List Unit) (L := Unit) List.isEmpty (fun _ => ())
        (.error "corrupt container") = .ok none ∧
    load_vector_layer (G := List Unit) (L := Unit) List.isEmpty (fun _ => ())
        (.ok [()]) = .ok (some ()) := by
  refine ⟨?_, ?_, ?_⟩
  · exact (C2_amended_none_for_empty_and_failure List.isEmpty (fun _ => ())).2.1
      [] (by decide)
  · exact (C2_amended_none_for_empty_and_failure List.isEmpty (fun _ => ())).1
      "corrupt container"
  · exact (C2_amended_none_for_empty_and_failure List.isEmpty (fun _ => ())).2.2.1
      [()] (by decide)

/-! ### Change detection and reload (C3)

The filesystem is modelled as the association list `fs` of currently present
vector files with their modification times (the result of
`discover_gpkg_files()` paired with `stat().st_mtime`); `_file_mtimes` is the
loader's watermark dict.  `stat` failures (a file vanishing between the glob
and the stat) are not modelled: every discovered file has an mtime. -/

/-- The per-file body of the first loop of `check_files_changed`
(vector_loader.py:585-601): a file triggers a change when it has no stored
mtime (`New file detected`) or its mtime differs (`File modified`). -/
def fileTriggers (mtimes : List (String × Nat)) (pm : String × Nat) : Bool :=
  match odLookup pm.1 mtimes with
  | none => true
  | some m => decide (m ≠ pm.2)

/-- `VectorLayerLoader.check_files_changed` (vector_loader.py:576-613).  The
loop returns `True` at the first new/modified file; afterwards the tracked
and current key sets are compared and a non-empty removed set returns
`True`; otherwise `False`. -/
def check_files_changed (fs : List (String × Nat))
    (mtimes : List (String × Nat)) : Bool :=
  if fs.any (fileTriggers mtimes) then true
  else
    let current := fs.map Prod.fst
    let tracked := mtimes.map Prod.fst
    -- `if tracked_files != current_files:` (set comparison)
    if ¬ (tracked.all (current.contains ·) ∧ current.all (tracked.contains ·)) then
      -- `removed_files = tracked_files - current_files; if removed_files:`
      tracked.filter (fun p => ¬ current.contains p) ≠ []
    else false

/-- The `_file_mtimes` bookkeeping of `load_all_vector_layers`
(vector_loader.py:380-422): for every discovered file the watermark is set
(`self._file_mtimes[str(vector_path)] = mtime`).  The dict is never cleared,
so watermarks of files no longer on disk are left in place.  (The rebuild of
`loaded_layers` and the per-layer loading are not modelled; they do not touch
`_file_mtimes`.) -/
def loadAllVectorLayersMtimes (fs : List (String × Nat))
    (mtimes : List (String × Nat)) : List (String × Nat) :=
  fs.foldl (fun acc pm => odSet pm.1 pm.2 acc) mtimes

/-- Loader state for the reload claims: the two cache tiers plus the
watermark dict. -/
structure WatchSt (V W : Type) where
  caches : CachesSt V W
  fileMtimes : List (String × Nat)
  deriving Repr, DecidableEq

/-- `VectorLayerLoader.reload_if_changed` (vector_loader.py:615-630): when
`check_files_changed()` is true, clear both cache tiers, re-run
`load_all_vector_layers()` (watermark part modelled), return `True`;
otherwise return `False` and change nothing. -/
def reload_if_changed {V W : Type} (fs : List (String × Nat))
    (st : WatchSt V W) : Bool × WatchSt V W :=
  if check_files_changed fs st.fileMtimes then
    (true, ⟨⟨[], []⟩, loadAllVectorLayersMtimes fs st.fileMtimes⟩)
  else (false, st)

/-- The filesystem before the removal: files `a` and `b`. -/
def fsAB : List (String × Nat) := [("a.gpkg", 1), ("b.gpkg", 2)]

/-- The filesystem after deleting `b.gpkg`. -/
def fsA : List (String × Nat) := [("a.gpkg", 1)]

/-- Watermarks recorded by the initial full load of `fsAB`. -/
def mtimesAB : List (String × Nat) := loadAllVectorLayersMtimes fsAB []

/-- C3.  Change detection and reload, evaluated on a concrete scenario.
The detection part of the claim holds: on the freshly loaded state,
no change reports `false`, and an added file, a touched mtime, and a removed
file each report `true`; `reload_if_changed` then clears both tiers and
returns `true`.  But the final part of the claim fails: after the reload
triggered by removing `b.gpkg`, a further `check_files_changed` with an
unchanged filesystem still returns `true` — `load_all_vector_layers` never
deletes the stale watermark of the removed file, so the removed-files check
fires on every subsequent call (a perpetual-reload bug). -/
theorem C3_stale_watermark_after_removal_reload :
    check_files_changed fsAB mtimesAB = false ∧
    check_files_changed (fsAB ++ [("c.gpkg", 5)]) mtimesAB = true ∧
    check_files_changed [("a.gpkg", 9), ("b.gpkg", 2)] mtimesAB = true ∧
    check_files_changed fsA mtimesAB = true ∧
    (reload_if_changed (V := Nat) (W := Nat) fsA ⟨⟨[("x", 0)], [("y", 1)]⟩, mtimesAB⟩ =
      (true, ⟨⟨[], []⟩, [("a.gpkg", 1), ("b.gpkg", 2)]⟩)) ∧
    check_files_changed fsA
      (reload_if_changed (V := Nat) (W := Nat) fsA
        ⟨⟨[("x", 0)], [("y", 1)]⟩, mtimesAB⟩).2.fileMtimes = true := by
  decide

/-! ### Layer descriptors and the bounds summary (C7) -/

/-- The `bounds` 4-tuple `(minx, miny, maxx, maxy)` of a layer. -/
structure Bounds where
  minx : ℚ
  miny : ℚ
  maxx : ℚ
  maxy : ℚ
  deriving Repr, DecidableEq

/-- A style dict value: a string (e.g. `"#20B2AA"`) or a number. -/
def StyleVal : Type := String ⊕ ℚ

/-- The `VectorLayer` dataclass (vector_loader.py:15-28), fields in
declaration order, with the dataclass defaults. -/
structure VectorLayer where
  file_path : String
  layer_name : String
  display_name : String
  geometry_type : String
  feature_count : Nat
  bounds : Bounds
  crs : String
  source_file : String
  category : String := "vector"
  style : Option (List (String × StyleVal)) := none

/-- The dict returned by `create_bounds_summary` when layers are loaded. -/
structure BoundsSummary where
  overall_bounds : Bounds
  center : ℚ × ℚ
  layer_count : Nat

/-- `VectorLayerLoader.create_bounds_summary` (vector_loader.py:632-649):
`{}` (here `none`) when no layers are loaded; otherwise the component-wise
min/max over all layer bounds (Python's `min()`/`max()` over a non-empty
sequence, written as a fold from the first element), the midpoint, and the
layer count. -/
def create_bounds_summary (layers : List VectorLayer) : Option BoundsSummary :=
  match layers with
  | [] => none
  | l :: ls =>
    let minX := ls.foldl (fun a x => min a x.bounds.minx) l.bounds.minx
    let minY := ls.foldl (fun a x => min a x.bounds.miny) l.bounds.miny
    let maxX := ls.foldl (fun a x => max a x.bounds.maxx) l.bounds.maxx
    let maxY := ls.foldl (fun a x => max a x.bounds.maxy) l.bounds.maxy
    some { overall_bounds := ⟨minX, minY, maxX, maxY⟩,
           center := ((minX + maxX) / 2, (minY + maxY) / 2),
           layer_count := (l :: ls).length }

lemma foldl_min_le_init {α : Type} (g : α → ℚ) (xs : List α) (a : ℚ) :
    xs.foldl (fun m x => min m (g x)) a ≤ a := by
  induction xs generalizing a with
  | nil => simp
  | cons x xs ih => exact le_trans (ih (min a (g x))) (min_le_left _ _)

lemma foldl_min_le_mem {α : Type} (g : α → ℚ) {xs : List α} {x : α} (a : ℚ)
    (h : x ∈ xs) : xs.foldl (fun m y => min m (g y)) a ≤ g x := by
  induction xs generalizing a with
  | nil => simp at h
  | cons y ys ih =>
    rcases List.mem_cons.1 h with rfl | h'
    · exact le_trans (foldl_min_le_init g ys (min a (g x))) (min_le_right _ _)
    · exact ih (min a (g y)) h'

lemma foldl_min_attained {α : Type} (g : α → ℚ) (xs : List α) (a : ℚ) :
    xs.foldl (fun m x => min m (g x)) a = a ∨
      ∃ x ∈ xs, xs.foldl (fun m y => min m (g y)) a = g x := by
  induction xs generalizing a with
  | nil => exact Or.inl rfl
  | cons y ys ih =>
    rcases ih (min a (g y)) with h | ⟨x, hx, hxe⟩
    · rcases min_choice a (g y) with hm | hm
      · exact Or.inl (by simpa [hm] using h)
      · exact Or.inr ⟨y, List.mem_cons_self _ _, by simpa [hm] using h⟩
    · exact Or.inr ⟨x, List.mem_cons_of_mem _ hx, hxe⟩

lemma foldl_max_init_le {α : Type} (g : α → ℚ) (xs : List α) (a : ℚ) :
    a ≤ xs.foldl (fun m x => max m (g x)) a := by
  induction xs generalizing a with
  | nil => simp
  | cons x xs ih => exact le_trans (le_max_left _ _) (ih (max a (g x)))

lemma foldl_max_mem_le {α : Type} (g : α → ℚ) {xs : List α} {x : α} (a : ℚ)
    (h : x ∈ xs) : g x ≤ xs.foldl (fun m y => max m (g y)) a := by
  induction xs generalizing a with
  | nil => simp at h
  | cons y ys ih =>
    rcases List.mem_cons.1 h with rfl | h'
    · exact le_trans (le_max_right _ _) (foldl_max_init_le g ys (max a (g x)))
    · exact ih (max a (g y)) h'

lemma foldl_max_attained {α : Type} (g : α → ℚ) (xs : List α) (a : ℚ) :
    xs.foldl (fun m x => max m (g x)) a = a ∨
      ∃ x ∈ xs, xs.foldl (fun m y => max m (g y)) a = g x := by
  induction xs generalizing a with
  | nil => exact Or.inl rfl
  | cons y ys ih =>
    rcases ih (max a (g y)) with h | ⟨x, hx, hxe⟩
    · rcases max_choice a (g y) with hm | hm
      · exact Or.inl (by simpa [hm] using h)
      · exact Or.inr ⟨y, List.mem_cons_self _ _, by simpa [hm] using h⟩
    · exact Or.inr ⟨x, List.mem_cons_of_mem _ hx, hxe⟩

/-- A sample layer descriptor used by the concrete bounds-summary instance. -/
def exLayer (nm : String) (b : Bounds) : VectorLayer :=
  { file_path := "data/vector/" ++ nm ++ ".gpkg", layer_name := nm,
    display_name := nm, geometry_type := "Polygon", feature_count := 1,
    bounds := b, crs := "EPSG:4326", source_file := nm ++ ".gpkg" }

/-- The three layers of the claim's example, with bounding boxes
`(0,0,1,1)`, `(2,2,3,3)`, `(-1,-1,0,0)`. -/
def exLayers : List VectorLayer :=
  [exLayer "u" ⟨0, 0, 1, 1⟩, exLayer "v" ⟨2, 2, 3, 3⟩, exLayer "w" ⟨-1, -1, 0, 0⟩]

/-- C7.  `create_bounds_summary` returns `none` (the empty dict) on an empty
catalog; on the claim's three-box example it returns overall bounds
`(-1,-1,3,3)`, center `(1,1)` and layer count 3; and in general a returned
summary's overall box is the component-wise union (a lower/upper bound on
every layer's box, each component attained by some layer), the center is the
midpoint of that box, and the count is the number of loaded layers. -/
theorem C7_bounds_summary :
    create_bounds_summary [] = none ∧
    create_bounds_summary exLayers = some ⟨⟨-1, -1, 3, 3⟩, (1, 1), 3⟩ ∧
    ∀ layers s, create_bounds_summary layers = some s →
      (∀ l ∈ layers,
        s.overall_bounds.minx ≤ l.bounds.minx ∧
        s.overall_bounds.miny ≤ l.bounds.miny ∧
        l.bounds.maxx ≤ s.overall_bounds.maxx ∧
        l.bounds.maxy ≤ s.overall_bounds.maxy) ∧
      (∃ l ∈ layers, s.overall_bounds.minx = l.bounds.minx) ∧
      (∃ l ∈ layers, s.overall_bounds.miny = l.bounds.miny) ∧
      (∃ l ∈ layers, s.overall_bounds.maxx = l.bounds.maxx) ∧
      (∃ l ∈ layers, s.overall_bounds.maxy = l.bounds.maxy) ∧
      s.center = ((s.overall_bounds.minx + s.overall_bounds.maxx) / 2,
        (s.overall_bounds.miny + s.overall_bounds.maxy) / 2) ∧
      s.layer_count = layers.length := by
  refine ⟨rfl, ?_, ?_⟩
  · norm_num [create_bounds_summary, exLayers, exLayer, min_def, max_def]
  · rintro layers s h
    match layers with
    | [] => simp [create_bounds_summary] at h
    | l :: ls =>
      simp only [create_bounds_summary, Option.some.injEq] at h
      subst h
      refine ⟨?_, ?_, ?_, ?_, ?_, rfl, rfl⟩
      · rintro l' hl'
        rcases List.mem_cons.1 hl' with rfl | hmem
        · exact ⟨foldl_min_le_init _ _ _, foldl_min_le_init _ _ _,
            foldl_max_init_le _ _ _, foldl_max_init_le _ _ _⟩
        · exact ⟨foldl_min_le_mem _ _ hmem, foldl_min_le_mem _ _ hmem,
            foldl_max_mem_le _ _ hmem, foldl_max_mem_le _ _ hmem⟩
      · rcases foldl_min_attained (fun x => x.bounds.minx) ls l.bounds.minx with
          he | ⟨x, hx, he⟩
        · exact ⟨l, List.mem_cons_self _ _, he⟩
        · exact ⟨x, List.mem_cons_of_mem _ hx, he⟩
      · rcases foldl_min_attained (fun x => x.bounds.miny) ls l.bounds.miny with
          he | ⟨x, hx, he⟩
        · exact ⟨l, List.mem_cons_self _ _, he⟩
        · exact ⟨x, List.mem_cons_of_mem _ hx, he⟩
      · rcases foldl_max_attained (fun x => x.bounds.maxx) ls l.bounds.maxx with
          he | ⟨x, hx, he⟩
        · exact ⟨l, List.mem_cons_self _ _, he⟩
        · exact ⟨x, List.mem_cons_of_mem _ hx, he⟩
      · rcases foldl_max_attained (fun x => x.bounds.maxy) ls l.bounds.maxy with
          he | ⟨x, hx, he⟩
        · exact ⟨l, List.mem_cons_self _ _, he⟩
        · exact ⟨x, List.mem_cons_of_mem _ hx, he⟩

/-- C7 witness: the general characterization applied to the concrete
three-layer example. -/
theorem C7_bounds_summary_witness :
    (∃ l ∈ exLayers, (⟨⟨-1, -1, 3, 3⟩, (1, 1), 3⟩ : BoundsSummary).overall_bounds.minx
      = l.bounds.minx) ∧
    (⟨⟨-1, -1, 3, 3⟩, (1, 1), 3⟩ : BoundsSummary).layer_count = exLayers.length := by
  have h := C7_bounds_summary.2.2 exLayers ⟨⟨-1, -1, 3, 3⟩, (1, 1), 3⟩
    C7_bounds_summary.2.1
  exact ⟨h.2.1, h.2.2.2.2.2.2⟩

/-! ### `_force_2d` (C8)

Shapely geometries are modelled structurally.  A coordinate is `(x, y)` with
an optional third component; rings and parts are lists.  Shapely multi-part
geometries are homogeneous (a MultiPolygon contains only Polygons, etc.), so
the parts of a multi-geometry are stored as their coordinate content and the
recursive `self._force_2d(g)` on a part is inlined as the part's own case
(each part gets its own `has_z` test, exactly as the recursive call does).
The `geom is None` guard and the fall-through for unsupported
`hasattr`-combinations are outside the supported kinds the claim is about. -/

/-- A shapely coordinate: `(x, y)` or `(x, y, z)`. -/
structure Coord3 where
  x : ℚ
  y : ℚ
  z : Option ℚ
  deriving Repr, DecidableEq

/-- `(x, y) for x, y, *z in coords`: drop the third component. -/
def dropZ (c : Coord3) : Coord3 := ⟨c.x, c.y, none⟩

def coordHasZ (c : Coord3) : Bool := c.z.isSome

/-- A coordinate sequence has a z-component (shapely geometries are
dimensionally uniform, so "some coordinate has z" and "all do" agree on
well-formed geometries). -/
def ringHasZ (cs : List Coord3) : Bool := cs.any coordHasZ

/-- Supported shapely geometry kinds, as `_force_2d` dispatches on them:
Polygon (`exterior`/`interiors`), the three multi-kinds (`geoms`), and
LineString/Point (`coords`).  A polygon is its exterior ring plus interior
rings; multi-part geometries hold the coordinate content of their
(homogeneous) parts. -/
inductive Geom where
  | point (c : Coord3)
  | lineString (cs : List Coord3)
  | polygon (ext : List Coord3) (holes : List (List Coord3))
  | multiPoint (cs : List Coord3)
  | multiLineString (parts : List (List Coord3))
  | multiPolygon (parts : List (List Coord3 × List (List Coord3)))
  deriving Repr, DecidableEq

/-- shapely's `geom.has_z`. -/
def Geom.hasZ : Geom → Bool
  | .point c => coordHasZ c
  | .lineString cs => ringHasZ cs
  | .polygon ext holes => ringHasZ ext || holes.any ringHasZ
  | .multiPoint cs => cs.any coordHasZ
  | .multiLineString parts => parts.any ringHasZ
  | .multiPolygon parts => parts.any (fun p => ringHasZ p.1 || p.2.any ringHasZ)

/-- The recursive `_force_2d` applied to one Polygon part of a MultiPolygon
(the part takes the `hasattr(geom, 'exterior')` branch after its own `has_z`
test). -/
def force2dPolyPart (p : List Coord3 × List (List Coord3)) :
    List Coord3 × List (List Coord3) :=
  if ringHasZ p.1 || p.2.any ringHasZ then
    (p.1.map dropZ, p.2.map (List.map dropZ))
  else p

/-- The recursive `_force_2d` applied to one LineString part of a
MultiLineString. -/
def force2dLinePart (cs : List Coord3) : List Coord3 :=
  if ringHasZ cs then cs.map dropZ else cs

/-- The recursive `_force_2d` applied to one Point part of a MultiPoint. -/
def force2dPointPart (c : Coord3) : Coord3 :=
  if coordHasZ c then dropZ c else c

/-- `VectorLayerLoader._force_2d` (vector_loader.py:325-367): if the geometry
has a z-component, rebuild it with every coordinate's third component
dropped, preserving the exterior/interior-ring and multi-part structure;
otherwise return the geometry unchanged. -/
def force2d (g : Geom) : Geom :=
  if g.hasZ then
    match g with
    | .polygon ext holes => .polygon (ext.map dropZ) (holes.map (List.map dropZ))
    | .multiPolygon parts => .multiPolygon (parts.map force2dPolyPart)
    | .multiLineString parts => .multiLineString (parts.map force2dLinePart)
    | .multiPoint cs => .multiPoint (cs.map force2dPointPart)
    | .lineString cs => .lineString (cs.map dropZ)
    | .point c => .point (dropZ c)
  else g

/-- The ring/part skeleton of a geometry: the constructor plus the vertex
count of every ring, per part. -/
inductive GSkel where
  | point
  | lineString (n : Nat)
  | polygon (nExt : Nat) (holes : List Nat)
  | multiPoint (n : Nat)
  | multiLineString (parts : List Nat)
  | multiPolygon (parts : List (Nat × List Nat))
  deriving Repr, DecidableEq

/-- Ring/part structure of a geometry. -/
def gskel : Geom → GSkel
  | .point _ => .point
  | .lineString cs => .lineString cs.length
  | .polygon ext holes => .polygon ext.length (holes.map List.length)
  | .multiPoint cs => .multiPoint cs.length
  | .multiLineString parts => .multiLineString (parts.map List.length)
  | .multiPolygon parts =>
    .multiPolygon (parts.map (fun p => (p.1.length, p.2.map List.length)))

lemma gskel_force2dPolyPart (p : List Coord3 × List (List Coord3)) :
    ((force2dPolyPart p).1.length, (force2dPolyPart p).2.map List.length) =
      (p.1.length, p.2.map List.length) := by
  unfold force2dPolyPart
  by_cases h : (ringHasZ p.1 || p.2.any ringHasZ) = true
  · simp [h, List.map_map, Function.comp]
  · simp [h]

lemma gskel_force2dLinePart (cs : List Coord3) :
    (force2dLinePart cs).length = cs.length := by
  unfold force2dLinePart
  by_cases h : ringHasZ cs = true
  · simp [h]
  · simp [h]

/-- C8.  (i) For a fully three-dimensional polygon with exterior ring `ext`
and one interior ring `hole`, `_force_2d` returns the polygon whose rings are
the original rings with each coordinate's third component dropped — in
particular the exterior still has `ext.length` vertices, the single interior
still has `hole.length` vertices, and every coordinate keeps its `x` and `y`.
(ii) For every supported geometry kind, `_force_2d` preserves the ring/part
skeleton (constructor, part count, and per-ring vertex counts). -/
theorem C8_force2d_structural
    (ext hole : List Coord3)
    (hne : ext ≠ [])
    (hext : ∀ c ∈ ext, c.z.isSome)
    (hhole : ∀ c ∈ hole, c.z.isSome) :
    (force2d (.polygon ext [hole]) =
      .polygon (ext.map dropZ) [hole.map dropZ] ∧
     (ext.map dropZ).length = ext.length ∧
     (hole.map dropZ).length = hole.length ∧
     (∀ c ∈ ext, dropZ c = ⟨c.x, c.y, none⟩) ∧
     (∀ c ∈ hole, dropZ c = ⟨c.x, c.y, none⟩)) ∧
    ∀ g, gskel (force2d g) = gskel g := by
  constructor
  · have hz : (Geom.polygon ext [hole]).hasZ = true := by
      match ext, hne with
      | c :: cs, _ =>
        simp only [Geom.hasZ, ringHasZ, List.any_cons, Bool.or_eq_true]
        exact Or.inl (Or.inl (by simpa [coordHasZ] using hext c (List.mem_cons_self _ _)))
    refine ⟨by simp [force2d, hz], by simp, by simp, fun c _ => rfl, fun c _ => rfl⟩
  · intro g
    unfold force2d
    by_cases h : g.hasZ = true
    · simp only [h, if_true]
      cases g with
      | point c => rfl
      | lineString cs => simp [gskel]
      | polygon ext holes => simp [gskel, List.map_map, Function.comp]
      | multiPoint cs => simp [gskel]
      | multiLineString parts =>
        simp only [gskel, GSkel.multiLineString.injEq, List.map_map]
        exact List.map_congr_left (fun cs _ => gskel_force2dLinePart cs)
      | multiPolygon parts =>
        simp only [gskel, GSkel.multiPolygon.injEq, List.map_map]
        exact List.map_congr_left (fun p _ => gskel_force2dPolyPart p)
    · simp [h]

/-- C8 witness: the structural theorem applied to a concrete 3D polygon with
four exterior vertices and a three-vertex interior ring. -/
theorem C8_force2d_structural_witness :
    force2d (.polygon
      [⟨0, 0, some 5⟩, ⟨10, 0, some 5⟩, ⟨10, 10, some 5⟩, ⟨0, 0, some 5⟩]
      [[⟨1, 1, some 5⟩, ⟨2, 1, some 5⟩, ⟨1, 1, some 5⟩]]) =
    .polygon
      [⟨0, 0, none⟩, ⟨10, 0, none⟩, ⟨10, 10, none⟩, ⟨0, 0, none⟩]
      [[⟨1, 1, none⟩, ⟨2, 1, none⟩, ⟨1, 1, none⟩]] := by
  have h := (C8_force2d_structural
    [⟨0, 0, some 5⟩, ⟨10, 0, some 5⟩, ⟨10, 10, some 5⟩, ⟨0, 0, some 5⟩]
    [⟨1, 1, some 5⟩, ⟨2, 1, some 5⟩, ⟨1, 1, some 5⟩]
    (by decide) (by decide) (by decide)).1.1
  simpa [dropZ] using h

/-! ### `get_layer_info_from_gpkg` (C9)

`VectorLayerLoader.get_layer_info_from_gpkg` (vector_loader.py:152-185) opens
a GPKG file, lists its layers, and reads each layer's metadata inside a
per-layer `try`/`except` that logs and `continue`s; the outer `try`/`except`
returns `[]` when listing/opening the file fails.  `I` is the per-layer info
dict type; `openRes` is `.error` when `fiona.listlayers`/`fiona.Env` raises,
otherwise the per-layer outcomes, in layer order (`.error` for a layer whose
`fiona.open` or metadata read raises). -/

def get_layer_info_from_gpkg {I : Type}
    (openRes : Except String (List (Except String I))) : List I :=
  match openRes with
  | .error _ => []
  | .ok layerResults =>
    layerResults.foldl
      (fun acc r =>
        match r with
        | .ok info => acc ++ [info]  -- `layers_info.append(info)`
        | .error _ => acc)           -- `except ...: continue`
      []

lemma collectOk_go {I : Type} (rs : List (Except String I))
    (acc : List I) :
    rs.foldl
      (fun acc r => match r with | .ok info => acc ++ [info] | .error _ => acc)
        acc =
      acc ++ rs.foldl
        (fun acc r => match r with | .ok info => acc ++ [info] | .error _ => acc)
        [] := by
  induction rs generalizing acc with
  | nil => simp
  | cons r rest ih =>
    cases r with
    | ok info =>
      simp only [List.foldl_cons, List.nil_append]
      rw [ih (acc ++ [info]), ih [info], List.append_assoc]
    | error e => simpa using ih acc

/-- C9.  (i) When the file cannot be opened/listed at all the result is the
empty list, not a raised error.  (ii) A failing layer is skipped without
aborting its siblings: removing a failing layer from the per-layer outcomes
does not change the result, so the layers before *and* after it are still
processed.  (iii) When every layer reads successfully, all descriptors are
returned in order.  (iv) The concrete mixed case: a good layer, a corrupt
layer, and another good layer yield exactly the two good descriptors. -/
theorem C9_partial_failure_isolated :
    (∀ (I : Type) (e : String),
      get_layer_info_from_gpkg (I := I) (.error e) = []) ∧
    (∀ (I : Type) (xs ys : List (Except String I)) (e : String),
      get_layer_info_from_gpkg (.ok (xs ++ .error e :: ys)) =
        get_layer_info_from_gpkg (.ok (xs ++ ys))) ∧
    (∀ (I : Type) (infos : List I),
      get_layer_info_from_gpkg (.ok (infos.map .ok)) = infos) ∧
    get_layer_info_from_gpkg
        (.ok [.ok "layerA", .error "corrupt layer", .ok "layerC"]) =
      ["layerA", "layerC"] := by
  refine ⟨fun I e => rfl, fun I xs ys e => ?_, fun I infos => ?_, by decide⟩
  · simp only [get_layer_info_from_gpkg, List.foldl_append, List.foldl_cons]
  · induction infos with
    | nil => rfl
    | cons i rest ih =>
      simp only [get_layer_info_from_gpkg, List.map_cons, List.foldl_cons,
        List.nil_append]
      rw [collectOk_go]
      simpa [get_layer_info_from_gpkg] using congrArg (List.cons i) ih

/-! ### `get_layers_summary` (C10)

`VectorLayerLoader.get_layers_summary` (vector_loader.py:566-574) converts
each loaded `VectorLayer` to a dict with `dataclasses.asdict` and pops the
`file_path` key.  Dicts of field values are modelled as association lists
over a sum of the field value types. -/

/-- A field value of the `asdict(layer)` dict. -/
inductive FieldVal where
  | s (v : String)
  | n (v : Nat)
  | b (v : Bounds)
  | st (v : Option (List (String × StyleVal)))

/-- `dataclasses.asdict(layer)`: the `VectorLayer` fields, declaration
order. -/
def asdictVL (l : VectorLayer) : List (String × FieldVal) :=
  [("file_path", .s l.file_path),
   ("layer_name", .s l.layer_name),
   ("display_name", .s l.display_name),
   ("geometry_type", .s l.geometry_type),
   ("feature_count", .n l.feature_count),
   ("bounds", .b l.bounds),
   ("crs", .s l.crs),
   ("source_file", .s l.source_file),
   ("category", .s l.category),
   ("style", .st l.style)]

/-- `get_layers_summary`: one dict per loaded layer, each with
`file_path` popped (`layer_dict.pop("file_path", None)`). -/
def get_layers_summary (layers : List VectorLayer) :
    List (List (String × FieldVal)) :=
  layers.map (fun l => odErase "file_path" (asdictVL l))

/-- C10.  The summary has one record per loaded layer; the record of layer
`l` carries no `file_path` key, while the other nine descriptor fields are
present unchanged. -/
theorem C10_summary_hides_file_path (layers : List VectorLayer) :
    (get_layers_summary layers).length = layers.length ∧
    (∀ d ∈ get_layers_summary layers,
      ∃ l ∈ layers, d = odErase "file_path" (asdictVL l)) ∧
    ∀ l ∈ layers,
      odErase "file_path" (asdictVL l) ∈ get_layers_summary layers ∧
      odLookup "file_path" (odErase "file_path" (asdictVL l)) = none ∧
      odLookup "layer_name" (odErase "file_path" (asdictVL l)) =
        some (.s l.layer_name) ∧
      odLookup "display_name" (odErase "file_path" (asdictVL l)) =
        some (.s l.display_name) ∧
      odLookup "geometry_type" (odErase "file_path" (asdictVL l)) =
        some (.s l.geometry_type) ∧
      odLookup "feature_count" (odErase "file_path" (asdictVL l)) =
        some (.n l.feature_count) ∧
      odLookup "bounds" (odErase "file_path" (asdictVL l)) =
        some (.b l.bounds) ∧
      odLookup "crs" (odErase "file_path" (asdictVL l)) = some (.s l.crs) ∧
      odLookup "source_file" (odErase "file_path" (asdictVL l)) =
        some (.s l.source_file) ∧
      odLookup "category" (odErase "file_path" (asdictVL l)) =
        some (.s l.category) ∧
      odLookup "style" (odErase "file_path" (asdictVL l)) =
        some (.st l.style) := by
  refine ⟨by simp [get_layers_summary], ?_, ?_⟩
  · intro d hd
    rcases List.mem_map.1 hd with ⟨l, hl, rfl⟩
    exact ⟨l, hl, rfl⟩
  · intro l hl
    exact ⟨List.mem_map_of_mem _ hl, rfl, rfl, rfl, rfl, rfl, rfl, rfl, rfl,
      rfl, rfl⟩

/-- C10 witness: the per-layer facts at a concrete layer. -/
theorem C10_summary_hides_file_path_witness :
    odLookup "file_path"
      (odErase "file_path" (asdictVL (exLayer "u" ⟨0, 0, 1, 1⟩))) = none ∧
    odLookup "layer_name"
      (odErase "file_path" (asdictVL (exLayer "u" ⟨0, 0, 1, 1⟩))) =
      some (.s "u") := by
  have h := (C10_summary_hides_file_path [exLayer "u" ⟨0, 0, 1, 1⟩]).2.2
    (exLayer "u" ⟨0, 0, 1, 1⟩) (List.mem_singleton.2 rfl)
  exact ⟨h.2.1, h.2.2.1⟩

end BBTViewer

